import Mathlib

/-!
Verification of the day-cycle scheduling engine of a wallpaper-changer
program (a single Rust source file).  The functions below are shallow
embeddings of the Rust functions of the same names:

* machine integers (`i64`) become `Int`; Rust's `/` on `i64` truncates
  toward zero, which is `Int.tdiv`, and a division by zero panics, which
  we model by returning `none`;
* fallible Rust code (`Result`) becomes `Except String`;
* a Rust panic (division by zero, out-of-bounds index) becomes `none`
  in an `Option`-valued result;
* the external astronomical library (`geodate`) and the wall-clock /
  wallpaper-setting effects are parameters of the embedding.
-/

namespace WallpaperChanger

/-- Rust struct `WallpaperChangerConfig`: the user configuration. -/
structure WallpaperChangerConfig where
  longitude : Float
  latitude : Float
  wallpaper_pack : String

/-- Rust struct `WallpaperPackConfig`: six ordered image lists, one per
day segment. -/
structure WallpaperPackConfig where
  midnight : List String
  sunrise : List String
  noon : List String
  sunset : List String
  moonrise : List String
  moonset : List String
  deriving DecidableEq

/-- The seven anchor timestamps that `get_day_sun_and_moon_position_times`
inserts into its `HashMap<SunAndMoonKeys, i64>`.  The map is always
populated with exactly these seven keys, so we embed it as a structure
with one `Int` field per key. -/
structure SunAndMoon where
  midnight : Int
  sunrise : Int
  noon : Int
  sunset : Int
  moonrise : Int
  moonset : Int
  nextDayMidnight : Int
  deriving DecidableEq

/-- The external transit library (`geodate::sun_transit` and
`geodate::moon_transit`): black-box functions from a day-start POSIX
timestamp (and longitude/latitude) to transition instants.  The four
rise/set functions may report unavailability (`Option`), matching
`Option<i64>` in the library; noon and midnight never fail. -/
structure TransitProvider where
  get_sunrise : Int → Float → Float → Option Int
  get_sunset : Int → Float → Float → Option Int
  get_noon : Int → Float → Int
  get_midnight : Int → Float → Int
  get_moonrise : Int → Float → Float → Option Int
  get_moonset : Int → Float → Float → Option Int

/-- Rust `fn get_day_sun_and_moon_position_times`: queries the transit
provider in the source's order (sunrise, sunset, noon, midnight,
moonrise, moonset) and fails with the source's message at the first
unavailable transition.  `NextDayMidnight` is
`(Local.timestamp_opt(today_posix, 0).unwrap() + Duration::days(1)).timestamp()`;
chrono's `Duration::days(1)` is exactly 86400 seconds of absolute time
and the local conversion round-trips the timestamp, so this is
`today_posix + 86400`. -/
def get_day_sun_and_moon_position_times (tp : TransitProvider)
    (today_posix : Int) (longitude latitude : Float) :
    Except String SunAndMoon :=
  match tp.get_sunrise today_posix longitude latitude with
  | none => Except.error "Can\x27t get sunrise."
  | some sunrise =>
    match tp.get_sunset today_posix longitude latitude with
    | none => Except.error "Can\x27t get sunset."
    | some sunset =>
      let noon := tp.get_noon today_posix longitude
      let midnight := tp.get_midnight today_posix longitude
      match tp.get_moonrise today_posix longitude latitude with
      | none => Except.error "Can\x27t get moonrise."
      | some moonrise =>
        match tp.get_moonset today_posix longitude latitude with
        | none => Except.error "Can\x27t get moonset."
        | some moonset =>
          Except.ok
            { midnight := midnight, sunrise := sunrise, noon := noon,
              sunset := sunset, moonrise := moonrise, moonset := moonset,
              nextDayMidnight := today_posix + 86400 }

/-- Rust `fn timestamp_splitter`: computes
`step = (end - start) / chunks` (truncating `i64` division) and returns
`(1..chunks + 1).map(|x| start + x * step)`.  The division is evaluated
unconditionally, so `chunks = 0` is a division-by-zero panic (`none`).
For `chunks < 0` the Rust range `1..chunks + 1` is empty, matched here
by `Int.toNat` sending negatives to `0`. -/
def timestamp_splitter (start stop chunks : Int) : Option (List Int) :=
  if chunks = 0 then none
  else
    let step := Int.tdiv (stop - start) chunks
    some ((List.range chunks.toNat).map fun (x : Nat) =>
      start + ((x : Int) + 1) * step)

/-- The image-path expression
`PathBuf::new().join(wallpaper_pack_dir).join(x)` used by
`map_images_and_timestamps`. -/
def image_path (wallpaper_pack_dir x : String) : String :=
  wallpaper_pack_dir ++ "/" ++ x

/-- Rust `fn map_images_and_timestamps`: for each of the six segments in
source order (midnight, moonset, sunrise, noon, sunset, moonrise) it
appends the segment's image paths and the timestamps from
`timestamp_splitter` over that segment's anchor pair.  A panic inside
any `timestamp_splitter` call (empty image list) aborts the whole
function (`none`). -/
def map_images_and_timestamps (sun_and_moon : SunAndMoon)
    (wallpaper_pack_config : WallpaperPackConfig)
    (wallpaper_pack_dir : String) : Option (List String × List Int) := do
  let t1 ← timestamp_splitter sun_and_moon.midnight sun_and_moon.moonset
    (wallpaper_pack_config.midnight.length : Int)
  let t2 ← timestamp_splitter sun_and_moon.moonset sun_and_moon.sunrise
    (wallpaper_pack_config.moonset.length : Int)
  let t3 ← timestamp_splitter sun_and_moon.sunrise sun_and_moon.noon
    (wallpaper_pack_config.sunrise.length : Int)
  let t4 ← timestamp_splitter sun_and_moon.noon sun_and_moon.sunset
    (wallpaper_pack_config.noon.length : Int)
  let t5 ← timestamp_splitter sun_and_moon.sunset sun_and_moon.moonrise
    (wallpaper_pack_config.sunset.length : Int)
  let t6 ← timestamp_splitter sun_and_moon.moonrise sun_and_moon.nextDayMidnight
    (wallpaper_pack_config.moonrise.length : Int)
  pure
    (wallpaper_pack_config.midnight.map (image_path wallpaper_pack_dir) ++
       wallpaper_pack_config.moonset.map (image_path wallpaper_pack_dir) ++
       wallpaper_pack_config.sunrise.map (image_path wallpaper_pack_dir) ++
       wallpaper_pack_config.noon.map (image_path wallpaper_pack_dir) ++
       wallpaper_pack_config.sunset.map (image_path wallpaper_pack_dir) ++
       wallpaper_pack_config.moonrise.map (image_path wallpaper_pack_dir),
     t1 ++ t2 ++ t3 ++ t4 ++ t5 ++ t6)

/-- The wallpaper-selection `for` loop of `main` (the
`for (index, timestamp) in timestamp_seq.iter().enumerate()` loop):
walks the timestamp sequence with its index; at the first timestamp
with `current_timestamp < *timestamp` it reads
`images_seq[index]` (a panic — `none` — when the index is out of
bounds), applies that image and breaks.  `some none` means the loop
fell through without selecting; `some (some img)` means `img` was
applied. -/
def select_go (images_seq : List String) (current_timestamp : Int) :
    Nat → List Int → Option (Option String)
  | _, [] => some none
  | index, t :: rest =>
    if current_timestamp < t then
      match images_seq[index]? with
      | none => none
      | some img => some (some img)
    else select_go images_seq current_timestamp (index + 1) rest

/-- Entry point of the selection loop: indices start at 0. -/
def select_wallpaper (timestamp_seq : List Int) (images_seq : List String)
    (current_timestamp : Int) : Option (Option String) :=
  select_go images_seq current_timestamp 0 timestamp_seq

/-- The mutable state of the scheduling loop in `main`: the current
anchor set `sun_and_moon` and the current timeline
(`images_seq`, `timestamp_seq`). -/
structure SchedulerState where
  sun_and_moon : SunAndMoon
  images_seq : List String
  timestamp_seq : List Int
  deriving DecidableEq

/-- One iteration of the `while !terminate_loop` body of `main`, given
the wall-clock reading `current_timestamp` taken at the top of the
iteration and the day-start timestamp `new_today` that
`Local::now().date_naive().and_hms_opt(0,0,0)` would produce if a
rollover fires.  If `current_timestamp > sun_and_moon[NextDayMidnight]`
the anchor set is refetched and the timeline rebuilt (a transit failure
propagates as `Except.error`, a rebuild panic as `none`); the iteration
then falls through to the selection loop over the (possibly new)
timeline.  The result carries the state after the iteration together
with the image applied this tick, if any. -/
def loop_iter (tp : TransitProvider) (config : WallpaperChangerConfig)
    (wallpaper_pack_config : WallpaperPackConfig)
    (wallpaper_pack_dir : String) (new_today : Int)
    (current_timestamp : Int) (st : SchedulerState) :
    Option (Except String (SchedulerState × Option String)) :=
  if st.sun_and_moon.nextDayMidnight < current_timestamp then
    match get_day_sun_and_moon_position_times tp new_today
        config.longitude config.latitude with
    | Except.error e => some (Except.error e)
    | Except.ok sm =>
      match map_images_and_timestamps sm wallpaper_pack_config
          wallpaper_pack_dir with
      | none => none
      | some (imgs, ts) =>
        match select_wallpaper ts imgs current_timestamp with
        | none => none
        | some applied =>
          some (Except.ok (⟨sm, imgs, ts⟩, applied))
  else
    match select_wallpaper st.timestamp_seq st.images_seq current_timestamp with
    | none => none
    | some applied => some (Except.ok (st, applied))

/-- Outcome of the startup section of `main` (after the directory and
user-config glue), distinguishing the source's control-flow exits:
`notConfigured msg` is the `println!` + `return Ok(())` branch taken
when `config.wallpaper_pack == ""` (a success exit), `fatal msg` is an
`Err(msg)` return, `panicked` is a Rust panic, and
`running sm imgs ts` means the loop is entered with anchor set `sm` and
timeline `(imgs, ts)`. -/
inductive StartupResult where
  | notConfigured (msg : String)
  | fatal (msg : String)
  | panicked
  | running (sm : SunAndMoon) (imgs : List String) (ts : List Int)
  deriving DecidableEq

/-- The startup sequence of `main` in source order: the empty
`wallpaper_pack` check (before the pack config is read), then the pack
config load (`fs::read_to_string` + `toml::from_str`, an external
effect passed in as `load_pack_config`), then
`get_day_sun_and_moon_position_times`, then
`map_images_and_timestamps`. -/
def main_startup (load_pack_config : Except String WallpaperPackConfig)
    (tp : TransitProvider) (config : WallpaperChangerConfig)
    (config_path : String) (today_posix : Int)
    (wallpaper_pack_dir : String) : StartupResult :=
  if config.wallpaper_pack = "" then
    StartupResult.notConfigured
      ("Wallpaper pack is not selected.\nCheck the config folder at path: "
        ++ config_path)
  else
    match load_pack_config with
    | Except.error e => StartupResult.fatal e
    | Except.ok wallpaper_pack_config =>
      match get_day_sun_and_moon_position_times tp today_posix
          config.longitude config.latitude with
      | Except.error e => StartupResult.fatal e
      | Except.ok sm =>
        match map_images_and_timestamps sm wallpaper_pack_config
            wallpaper_pack_dir with
        | none => StartupResult.panicked
        | some (imgs, ts) => StartupResult.running sm imgs ts

/-! ## Helper lemmas about the interval partitioner -/

/-- For a nonzero chunk count the splitter succeeds and its list is the
range-map of the source expression. -/
theorem timestamp_splitter_pos (start stop chunks : Int) (h : chunks ≠ 0) :
    timestamp_splitter start stop chunks =
      some ((List.range chunks.toNat).map fun (x : Nat) =>
        start + ((x : Int) + 1) * Int.tdiv (stop - start) chunks) := by
  simp [timestamp_splitter, h]

/-- For a negative chunk count the Rust range `1..chunks + 1` is empty,
so the splitter returns the empty list. -/
theorem timestamp_splitter_neg (start stop chunks : Int) (h : chunks < 0) :
    timestamp_splitter start stop chunks = some [] := by
  rw [timestamp_splitter_pos start stop chunks h.ne]
  simp [Int.toNat_of_nonpos h.le]

/-- The step is nonnegative on a nonempty forward interval. -/
theorem splitter_step_nonneg (start stop chunks : Int) (hse : start ≤ stop)
    (hc : 0 < chunks) : 0 ≤ Int.tdiv (stop - start) chunks :=
  Int.tdiv_nonneg (by omega) hc.le

/-- `chunks` whole steps do not overshoot the interval. -/
theorem splitter_steps_le (start stop chunks : Int) (hse : start ≤ stop)
    (hc : 0 < chunks) :
    chunks * Int.tdiv (stop - start) chunks ≤ stop - start := by
  rw [Int.tdiv_eq_ediv (by omega) hc.le, mul_comm]
  exact Int.ediv_mul_le (stop - start) hc.ne'

/-- Every element the splitter produces lies in `[start, stop]` when the
interval is forward. -/
theorem splitter_mem_bounds (start stop chunks : Int) (l : List Int)
    (hse : start ≤ stop) (h : timestamp_splitter start stop chunks = some l) :
    ∀ x ∈ l, start ≤ x ∧ x ≤ stop := by
  rcases lt_trichotomy chunks 0 with hc | hc | hc
  · rw [timestamp_splitter_neg start stop chunks hc] at h
    injection h with h
    subst h
    simp
  · subst hc
    simp [timestamp_splitter] at h
  · rw [timestamp_splitter_pos start stop chunks hc.ne'] at h
    have hstep := splitter_step_nonneg start stop chunks hse hc
    intro x hx
    injection h with h
    subst h
    simp only [List.mem_map, List.mem_range] at hx
    obtain ⟨a, ha, rfl⟩ := hx
    have haN : (a : Int) < (chunks.toNat : Int) := by exact_mod_cast ha
    rw [Int.toNat_of_nonneg hc.le] at haN
    have ha1 : (0 : Int) ≤ (a : Int) + 1 := by omega
    have ha2 : ((a : Int) + 1) ≤ chunks := by omega
    constructor
    · nlinarith
    · have h1 : ((a : Int) + 1) * Int.tdiv (stop - start) chunks ≤
          chunks * Int.tdiv (stop - start) chunks :=
        mul_le_mul_of_nonneg_right ha2 hstep
      have h2 := splitter_steps_le start stop chunks hse hc
      omega

/-- The splitter output is non-decreasing on a forward interval. -/
theorem splitter_pairwise (start stop chunks : Int) (l : List Int)
    (hse : start ≤ stop) (h : timestamp_splitter start stop chunks = some l) :
    l.Pairwise (· ≤ ·) := by
  rcases lt_trichotomy chunks 0 with hc | hc | hc
  · rw [timestamp_splitter_neg start stop chunks hc] at h
    injection h with h
    subst h
    simp
  · subst hc
    simp [timestamp_splitter] at h
  · rw [timestamp_splitter_pos start stop chunks hc.ne'] at h
    have hstep := splitter_step_nonneg start stop chunks hse hc
    injection h with h
    subst h
    rw [List.pairwise_map]
    refine (List.pairwise_lt_range chunks.toNat).imp ?_
    intro a b hab
    have hab1 : ((a : Int) + 1) ≤ ((b : Int) + 1) := by omega
    nlinarith

/-- The splitter returns exactly `chunks` timestamps when it returns
(`chunks.toNat` of them, matching a `chunks` that is a list length). -/
theorem splitter_length (start stop chunks : Int) (l : List Int)
    (h : timestamp_splitter start stop chunks = some l) :
    l.length = chunks.toNat := by
  by_cases hc : chunks = 0
  · subst hc
    simp [timestamp_splitter] at h
  · rw [timestamp_splitter_pos start stop chunks hc] at h
    injection h with h
    subst h
    simp

/-! ## C1: the partition formula, and the `count = 0` division by zero -/

/-- Counterexample to C1 as stated: `partition(0, 3600, 0)` does not
return the empty sequence; the unconditional division
`(end - start) / chunks` panics with a division by zero. -/
theorem timestamp_splitter_zero_count_panics :
    timestamp_splitter 0 3600 0 = none := by decide

/-- Claim C1 (amended): for every start, end and count >= 1,
`partition(start, end, count)` returns exactly the timestamps
`start + step * i` for `i = 1..count` where
`step = (end - start) / count` with truncating division; for
`count = 0` the function panics with a division by zero instead of
returning an empty sequence. -/
theorem timestamp_splitter_formula (start stop chunks : Int)
    (h : 0 < chunks) :
    ∃ l, timestamp_splitter start stop chunks = some l ∧
      l.length = chunks.toNat ∧
      ∀ i : Nat, ∀ hi : i < l.length,
        l.get ⟨i, hi⟩ =
          start + ((i : Int) + 1) * Int.tdiv (stop - start) chunks := by
  refine ⟨_, timestamp_splitter_pos start stop chunks h.ne', by simp, ?_⟩
  intro i hi
  simp [List.get_eq_getElem]

/-- Witness for C1's amended theorem at `partition(0, 3600, 2)`. -/
theorem timestamp_splitter_formula_witness :
    ∃ l, timestamp_splitter 0 3600 2 = some l ∧
      l.length = (2 : Int).toNat ∧
      ∀ i : Nat, ∀ hi : i < l.length,
        l.get ⟨i, hi⟩ = 0 + ((i : Int) + 1) * Int.tdiv (3600 - 0) 2 :=
  timestamp_splitter_formula 0 3600 2 (by decide)

/-! ## C9: partition monotonicity -/

/-- Claim C9: for `end > start` and `count ≥ 1`, the sequence returned by
`partition(start, end, count)` is non-decreasing. -/
theorem partition_monotone (start stop chunks : Int) (l : List Int)
    (h1 : start < stop) (h2 : 1 ≤ chunks)
    (h : timestamp_splitter start stop chunks = some l) :
    l.Pairwise (· ≤ ·) :=
  splitter_pairwise start stop chunks l h1.le h

/-- Witness for C9 at `partition(0, 3600, 2) = [1800, 3600]`. -/
theorem partition_monotone_witness :
    ([1800, 3600] : List Int).Pairwise (· ≤ ·) :=
  partition_monotone 0 3600 2 [1800, 3600] (by decide) (by decide)
    (by decide)

/-! ## Helper lemmas about the selection loop and the timeline builder -/

/-- The indexed selection loop computes the image of the first
(timestamp, image) pair — offset by the start index — whose timestamp
exceeds the clock, provided the image list is long enough for every
index the loop can reach. -/
theorem select_go_eq (images_seq : List String) (current : Int) :
    ∀ (ts : List Int) (index : Nat), index + ts.length ≤ images_seq.length →
      select_go images_seq current index ts =
        some (((ts.zip (images_seq.drop index)).find?
          fun p => decide (current < p.1)).map Prod.snd) := by
  intro ts
  induction ts with
  | nil => intro index h; simp [select_go]
  | cons t rest ih =>
    intro index h
    have hidx : index < images_seq.length := by
      simp only [List.length_cons] at h; omega
    rw [List.drop_eq_getElem_cons hidx, List.zip_cons_cons]
    by_cases hc : current < t
    · rw [select_go, if_pos hc, List.getElem?_eq_getElem hidx]
      rw [List.find?_cons_of_pos _ (by simpa using hc)]
      simp
    · rw [select_go, if_neg hc]
      rw [List.find?_cons_of_neg _ (by simpa using hc)]
      exact ih (index + 1) (by simp only [List.length_cons] at h; omega)

/-- The selection loop starting at index 0, as a first-match search over
the zipped timeline. -/
theorem select_wallpaper_eq (timestamp_seq : List Int)
    (images_seq : List String) (current : Int)
    (h : timestamp_seq.length ≤ images_seq.length) :
    select_wallpaper timestamp_seq images_seq current =
      some (((timestamp_seq.zip images_seq).find?
        fun p => decide (current < p.1)).map Prod.snd) := by
  have := select_go_eq images_seq current timestamp_seq 0 (by omega)
  simpa [select_wallpaper] using this

/-- Success-destructuring of the timeline builder: the six splitter
calls succeed and the outputs are the source's concatenations. -/
theorem map_images_and_timestamps_eq_some (sm : SunAndMoon)
    (cfg : WallpaperPackConfig) (dir : String)
    (imgs : List String) (ts : List Int) :
    map_images_and_timestamps sm cfg dir = some (imgs, ts) ↔
      ∃ t1 t2 t3 t4 t5 t6,
        timestamp_splitter sm.midnight sm.moonset
          (cfg.midnight.length : Int) = some t1 ∧
        timestamp_splitter sm.moonset sm.sunrise
          (cfg.moonset.length : Int) = some t2 ∧
        timestamp_splitter sm.sunrise sm.noon
          (cfg.sunrise.length : Int) = some t3 ∧
        timestamp_splitter sm.noon sm.sunset
          (cfg.noon.length : Int) = some t4 ∧
        timestamp_splitter sm.sunset sm.moonrise
          (cfg.sunset.length : Int) = some t5 ∧
        timestamp_splitter sm.moonrise sm.nextDayMidnight
          (cfg.moonrise.length : Int) = some t6 ∧
        imgs = cfg.midnight.map (image_path dir) ++
          cfg.moonset.map (image_path dir) ++
          cfg.sunrise.map (image_path dir) ++
          cfg.noon.map (image_path dir) ++
          cfg.sunset.map (image_path dir) ++
          cfg.moonrise.map (image_path dir) ∧
        ts = t1 ++ t2 ++ t3 ++ t4 ++ t5 ++ t6 := by
  simp only [map_images_and_timestamps, bind, Option.bind_eq_some,
    Option.pure_def, Option.some.injEq, Prod.mk.injEq]
  constructor
  · rintro ⟨t1, h1, t2, h2, t3, h3, t4, h4, t5, h5, t6, h6, hi, ht⟩
    exact ⟨t1, t2, t3, t4, t5, t6, h1, h2, h3, h4, h5, h6, hi.symm, ht.symm⟩
  · rintro ⟨t1, t2, t3, t4, t5, t6, h1, h2, h3, h4, h5, h6, hi, ht⟩
    exact ⟨t1, h1, t2, h2, t3, h3, t4, h4, t5, h5, t6, h6, hi.symm, ht.symm⟩

/-! ## C2: the selection rule of one loop iteration -/

/-- Claim C2: in a loop iteration with no rollover
(`now ≤ NextDayMidnight`), the scheduler applies exactly the image of
the first timeline entry whose timestamp is strictly greater than
`now` (the `find?` of the zipped timeline), and if `now ≥` every
timeline timestamp nothing is applied.  The length hypothesis is the
timeline invariant established by `map_images_and_timestamps`
(see `timeline_lengths_match`). -/
theorem loop_iter_selection (tp : TransitProvider)
    (config : WallpaperChangerConfig) (pack : WallpaperPackConfig)
    (dir : String) (new_today now : Int) (st : SchedulerState)
    (hroll : ¬ st.sun_and_moon.nextDayMidnight < now)
    (hlen : st.timestamp_seq.length ≤ st.images_seq.length) :
    loop_iter tp config pack dir new_today now st =
      some (Except.ok (st,
        (((st.timestamp_seq.zip st.images_seq).find?
          fun p => decide (now < p.1)).map Prod.snd))) ∧
    ((∀ t ∈ st.timestamp_seq, t ≤ now) →
      (((st.timestamp_seq.zip st.images_seq).find?
        fun p => decide (now < p.1)).map Prod.snd) = none) := by
  constructor
  · rw [loop_iter, if_neg hroll,
      select_wallpaper_eq st.timestamp_seq st.images_seq now hlen]
  · intro hall
    have : (st.timestamp_seq.zip st.images_seq).find?
        (fun p => decide (now < p.1)) = none := by
      rw [List.find?_eq_none]
      intro p hp
      have := (List.of_mem_zip hp).1
      simpa using hall p.1 this
    rw [this]
    rfl

/-- Witness for C2: anchors of the spec's example day, timeline
`[(1800, "d/a")]`, clock at 1000 — the first (and only) entry has
timestamp 1800 > 1000, so image "d/a" is the one applied. -/
theorem loop_iter_selection_witness :
    loop_iter
      ⟨fun _ _ _ => some 7200, fun _ _ _ => some 21600, fun _ _ => 14400,
        fun _ _ => 0, fun _ _ _ => some 25200, fun _ _ _ => some 3600⟩
      ⟨0.0, 0.0, "p"⟩
      ⟨["a"], ["c"], ["e"], ["f"], ["g"], ["b"]⟩ "d" 0 1000
      ⟨⟨0, 7200, 14400, 21600, 25200, 3600, 28800⟩, ["d/a"], [1800]⟩ =
      some (Except.ok
        (⟨⟨0, 7200, 14400, 21600, 25200, 3600, 28800⟩, ["d/a"], [1800]⟩,
          ((([1800].zip ["d/a"]).find?
            fun p => decide ((1000 : Int) < p.1)).map Prod.snd))) ∧
    ((∀ t ∈ [(1800 : Int)], t ≤ 1000) →
      ((([1800].zip ["d/a"]).find?
        fun p => decide ((1000 : Int) < p.1)).map Prod.snd) = none) :=
  loop_iter_selection _ _ _ "d" 0 1000 _ (by decide) (by decide)

/-! ## C10: the two timeline sequences have equal length -/

/-- Claim C10: whenever the timeline builder returns, the image sequence and
the timestamp sequence have the same length, and the selection loop
never goes out of bounds on them (it never panics, for any clock
value). -/
theorem timeline_lengths_match (sm : SunAndMoon)
    (cfg : WallpaperPackConfig) (dir : String)
    (imgs : List String) (ts : List Int)
    (h : map_images_and_timestamps sm cfg dir = some (imgs, ts)) :
    imgs.length = ts.length ∧
      ∀ now : Int, select_wallpaper ts imgs now ≠ none := by
  rw [map_images_and_timestamps_eq_some] at h
  obtain ⟨t1, t2, t3, t4, t5, t6, e1, e2, e3, e4, e5, e6, hi, ht⟩ := h
  have l1 := splitter_length _ _ _ _ e1
  have l2 := splitter_length _ _ _ _ e2
  have l3 := splitter_length _ _ _ _ e3
  have l4 := splitter_length _ _ _ _ e4
  have l5 := splitter_length _ _ _ _ e5
  have l6 := splitter_length _ _ _ _ e6
  simp only [Int.toNat_ofNat] at l1 l2 l3 l4 l5 l6
  have hlen : imgs.length = ts.length := by
    subst hi ht
    simp [l1, l2, l3, l4, l5, l6]
  refine ⟨hlen, fun now => ?_⟩
  rw [select_wallpaper_eq ts imgs now (le_of_eq hlen.symm)]
  simp

/-- Witness for C10 on the spec's example day with one image per
segment. -/
theorem timeline_lengths_match_witness :
    (["d/a", "d/b", "d/c", "d/e", "d/f", "d/g"] : List String).length =
      ([3600, 7200, 14400, 21600, 25200, 28800] : List Int).length ∧
    ∀ now : Int,
      select_wallpaper [3600, 7200, 14400, 21600, 25200, 28800]
        ["d/a", "d/b", "d/c", "d/e", "d/f", "d/g"] now ≠ none :=
  timeline_lengths_match ⟨0, 7200, 14400, 21600, 25200, 3600, 28800⟩
    ⟨["a"], ["c"], ["e"], ["f"], ["g"], ["b"]⟩ "d"
    ["d/a", "d/b", "d/c", "d/e", "d/f", "d/g"]
    [3600, 7200, 14400, 21600, 25200, 28800] (by decide)

/-! ## C3: timeline length -/

/-- Counterexample to C3 as stated: with an empty image list for the
midnight segment (a legal pack configuration), the timeline builder
does not contribute zero entries — the splitter's division by zero
panics and no timeline at all is produced. -/
theorem timeline_empty_segment_panics :
    map_images_and_timestamps ⟨0, 7200, 14400, 21600, 25200, 3600, 28800⟩
      ⟨[], ["c"], ["e"], ["f"], ["g"], ["b"]⟩ "d" = none := by decide

/-- Claim C3 (amended): when all six segment image lists are non-empty the
builder returns a timeline whose timestamp and image sequences each
have length equal to the sum of the six image-list lengths; an empty
image list for a segment does not contribute zero entries but panics
with a division by zero in the interval partitioner. -/
theorem timeline_length_eq_sum (sm : SunAndMoon)
    (cfg : WallpaperPackConfig) (dir : String)
    (h1 : cfg.midnight ≠ []) (h2 : cfg.moonset ≠ [])
    (h3 : cfg.sunrise ≠ []) (h4 : cfg.noon ≠ [])
    (h5 : cfg.sunset ≠ []) (h6 : cfg.moonrise ≠ []) :
    ∃ imgs ts, map_images_and_timestamps sm cfg dir = some (imgs, ts) ∧
      ts.length = cfg.midnight.length + cfg.moonset.length +
        cfg.sunrise.length + cfg.noon.length + cfg.sunset.length +
        cfg.moonrise.length ∧
      imgs.length = cfg.midnight.length + cfg.moonset.length +
        cfg.sunrise.length + cfg.noon.length + cfg.sunset.length +
        cfg.moonrise.length := by
  have c1 : (cfg.midnight.length : Int) ≠ 0 := by
    simpa [List.length_eq_zero] using h1
  have c2 : (cfg.moonset.length : Int) ≠ 0 := by
    simpa [List.length_eq_zero] using h2
  have c3 : (cfg.sunrise.length : Int) ≠ 0 := by
    simpa [List.length_eq_zero] using h3
  have c4 : (cfg.noon.length : Int) ≠ 0 := by
    simpa [List.length_eq_zero] using h4
  have c5 : (cfg.sunset.length : Int) ≠ 0 := by
    simpa [List.length_eq_zero] using h5
  have c6 : (cfg.moonrise.length : Int) ≠ 0 := by
    simpa [List.length_eq_zero] using h6
  obtain ⟨t1, e1⟩ : ∃ t, timestamp_splitter sm.midnight sm.moonset
      (cfg.midnight.length : Int) = some t :=
    ⟨_, timestamp_splitter_pos _ _ _ c1⟩
  obtain ⟨t2, e2⟩ : ∃ t, timestamp_splitter sm.moonset sm.sunrise
      (cfg.moonset.length : Int) = some t :=
    ⟨_, timestamp_splitter_pos _ _ _ c2⟩
  obtain ⟨t3, e3⟩ : ∃ t, timestamp_splitter sm.sunrise sm.noon
      (cfg.sunrise.length : Int) = some t :=
    ⟨_, timestamp_splitter_pos _ _ _ c3⟩
  obtain ⟨t4, e4⟩ : ∃ t, timestamp_splitter sm.noon sm.sunset
      (cfg.noon.length : Int) = some t :=
    ⟨_, timestamp_splitter_pos _ _ _ c4⟩
  obtain ⟨t5, e5⟩ : ∃ t, timestamp_splitter sm.sunset sm.moonrise
      (cfg.sunset.length : Int) = some t :=
    ⟨_, timestamp_splitter_pos _ _ _ c5⟩
  obtain ⟨t6, e6⟩ : ∃ t, timestamp_splitter sm.moonrise sm.nextDayMidnight
      (cfg.moonrise.length : Int) = some t :=
    ⟨_, timestamp_splitter_pos _ _ _ c6⟩
  refine ⟨_, t1 ++ t2 ++ t3 ++ t4 ++ t5 ++ t6,
    (map_images_and_timestamps_eq_some sm cfg dir _ _).mpr
      ⟨t1, t2, t3, t4, t5, t6, e1, e2, e3, e4, e5, e6, rfl, rfl⟩, ?_, ?_⟩
  · have l1 := splitter_length _ _ _ _ e1
    have l2 := splitter_length _ _ _ _ e2
    have l3 := splitter_length _ _ _ _ e3
    have l4 := splitter_length _ _ _ _ e4
    have l5 := splitter_length _ _ _ _ e5
    have l6 := splitter_length _ _ _ _ e6
    simp only [Int.toNat_ofNat] at l1 l2 l3 l4 l5 l6
    simp [l1, l2, l3, l4, l5, l6]
    omega
  · simp
    omega

/-- Witness for C3's amended theorem: one image per segment gives a
six-entry timeline. -/
theorem timeline_length_eq_sum_witness :
    ∃ imgs ts,
      map_images_and_timestamps ⟨0, 7200, 14400, 21600, 25200, 3600, 28800⟩
        ⟨["a"], ["c"], ["e"], ["f"], ["g"], ["b"]⟩ "d" = some (imgs, ts) ∧
      ts.length = 1 + 1 + 1 + 1 + 1 + 1 ∧
      imgs.length = 1 + 1 + 1 + 1 + 1 + 1 :=
  timeline_length_eq_sum ⟨0, 7200, 14400, 21600, 25200, 3600, 28800⟩
    ⟨["a"], ["c"], ["e"], ["f"], ["g"], ["b"]⟩ "d"
    (by decide) (by decide) (by decide) (by decide) (by decide) (by decide)

/-! ## C4: timeline ordering -/

/-- Appending two sorted blocks whose value ranges abut keeps the
concatenation sorted and within the combined range. -/
theorem pairwise_bounds_append {l₁ l₂ : List Int} {s₁ e₁ s₂ e₂ : Int}
    (h₁p : l₁.Pairwise (· ≤ ·)) (h₁b : ∀ x ∈ l₁, s₁ ≤ x ∧ x ≤ e₁)
    (h₂p : l₂.Pairwise (· ≤ ·)) (h₂b : ∀ x ∈ l₂, s₂ ≤ x ∧ x ≤ e₂)
    (hse₁ : s₁ ≤ e₁) (h12 : e₁ ≤ s₂) (hse₂ : s₂ ≤ e₂) :
    (l₁ ++ l₂).Pairwise (· ≤ ·) ∧ ∀ x ∈ l₁ ++ l₂, s₁ ≤ x ∧ x ≤ e₂ := by
  constructor
  · rw [List.pairwise_append]
    refine ⟨h₁p, h₂p, fun a ha b hb => ?_⟩
    have ha2 := (h₁b a ha).2
    have hb1 := (h₂b b hb).1
    omega
  · intro x hx
    rcases List.mem_append.mp hx with hx | hx
    · have := h₁b x hx; omega
    · have := h₂b x hx; omega

/-- Claim C4: when the seven anchors are strictly increasing in the fixed
cyclic order, the activation timestamps of the timeline produced by the
builder are non-decreasing across the whole concatenation. -/
theorem timeline_sorted (sm : SunAndMoon) (cfg : WallpaperPackConfig)
    (dir : String) (imgs : List String) (ts : List Int)
    (h1 : sm.midnight < sm.moonset) (h2 : sm.moonset < sm.sunrise)
    (h3 : sm.sunrise < sm.noon) (h4 : sm.noon < sm.sunset)
    (h5 : sm.sunset < sm.moonrise) (h6 : sm.moonrise < sm.nextDayMidnight)
    (h : map_images_and_timestamps sm cfg dir = some (imgs, ts)) :
    ts.Pairwise (· ≤ ·) := by
  rw [map_images_and_timestamps_eq_some] at h
  obtain ⟨t1, t2, t3, t4, t5, t6, e1, e2, e3, e4, e5, e6, hi, hts⟩ := h
  subst hts
  have p1 := splitter_pairwise _ _ _ _ h1.le e1
  have b1 := splitter_mem_bounds _ _ _ _ h1.le e1
  have p2 := splitter_pairwise _ _ _ _ h2.le e2
  have b2 := splitter_mem_bounds _ _ _ _ h2.le e2
  have p3 := splitter_pairwise _ _ _ _ h3.le e3
  have b3 := splitter_mem_bounds _ _ _ _ h3.le e3
  have p4 := splitter_pairwise _ _ _ _ h4.le e4
  have b4 := splitter_mem_bounds _ _ _ _ h4.le e4
  have p5 := splitter_pairwise _ _ _ _ h5.le e5
  have b5 := splitter_mem_bounds _ _ _ _ h5.le e5
  have p6 := splitter_pairwise _ _ _ _ h6.le e6
  have b6 := splitter_mem_bounds _ _ _ _ h6.le e6
  have c12 := pairwise_bounds_append p1 b1 p2 b2 h1.le le_rfl h2.le
  have c13 := pairwise_bounds_append c12.1 c12.2 p3 b3 (by omega) le_rfl
    h3.le
  have c14 := pairwise_bounds_append c13.1 c13.2 p4 b4 (by omega) le_rfl
    h4.le
  have c15 := pairwise_bounds_append c14.1 c14.2 p5 b5 (by omega) le_rfl
    h5.le
  have c16 := pairwise_bounds_append c15.1 c15.2 p6 b6 (by omega) le_rfl
    h6.le
  exact c16.1

/-- Witness for C4 on the spec's example day. -/
theorem timeline_sorted_witness :
    ([3600, 7200, 14400, 21600, 25200, 28800] : List Int).Pairwise (· ≤ ·) :=
  timeline_sorted ⟨0, 7200, 14400, 21600, 25200, 3600, 28800⟩
    ⟨["a"], ["c"], ["e"], ["f"], ["g"], ["b"]⟩ "d"
    ["d/a", "d/b", "d/c", "d/e", "d/f", "d/g"]
    [3600, 7200, 14400, 21600, 25200, 28800]
    (by decide) (by decide) (by decide) (by decide) (by decide) (by decide)
    (by decide)

/-! ## C5: day rollover -/

/-- Counterexample to C5 as stated: with the clock at 30000, past the
old anchor set's NextDayMidnight of 28800, the iteration refetches the
anchors and rebuilds the timeline — but it then falls through to the
selection loop in the same tick and applies the new timeline's first
future image (`some "d/a"`), instead of applying no wallpaper. -/
theorem rollover_applies_wallpaper_same_tick :
    loop_iter
      ⟨fun _ _ _ => some 36000, fun _ _ _ => some 50000, fun _ _ => 43200,
        fun _ _ => 28800, fun _ _ _ => some 54000, fun _ _ _ => some 32400⟩
      ⟨0.0, 0.0, "p"⟩ ⟨["a"], ["c"], ["e"], ["f"], ["g"], ["b"]⟩ "d"
      28800 30000
      ⟨⟨0, 7200, 14400, 21600, 25200, 3600, 28800⟩, ["d/a"], [1800]⟩ =
      some (Except.ok
        (⟨⟨28800, 36000, 43200, 50000, 54000, 32400, 115200⟩,
          ["d/a", "d/b", "d/c", "d/e", "d/f", "d/g"],
          [32400, 36000, 43200, 50000, 54000, 115200]⟩,
         some "d/a")) := by
  rfl

/-- Claim C5 (amended): in an iteration whose clock exceeds the current
anchor set's NextDayMidnight, the scheduler refetches the anchor set
for the new day, rebuilds the timeline, and then proceeds to the normal
selection step in the same tick over the new timeline — applying a
wallpaper this tick whenever the new timeline has an entry with
timestamp greater than now (rather than applying none). -/
theorem rollover_rebuilds_then_selects (tp : TransitProvider)
    (config : WallpaperChangerConfig) (pack : WallpaperPackConfig)
    (dir : String) (new_today now : Int) (st : SchedulerState)
    (sm : SunAndMoon) (imgs : List String) (ts : List Int)
    (hroll : st.sun_and_moon.nextDayMidnight < now)
    (hanch : get_day_sun_and_moon_position_times tp new_today
      config.longitude config.latitude = Except.ok sm)
    (hmap : map_images_and_timestamps sm pack dir = some (imgs, ts)) :
    loop_iter tp config pack dir new_today now st =
      (select_wallpaper ts imgs now).map fun applied =>
        Except.ok (⟨sm, imgs, ts⟩, applied) := by
  rw [loop_iter, if_pos hroll, hanch]
  dsimp only
  rw [hmap]
  dsimp only
  cases select_wallpaper ts imgs now <;> rfl

/-- Witness for C5's amended theorem on the concrete rollover tick of
the counterexample. -/
theorem rollover_rebuilds_then_selects_witness :
    loop_iter
      ⟨fun _ _ _ => some 36000, fun _ _ _ => some 50000, fun _ _ => 43200,
        fun _ _ => 28800, fun _ _ _ => some 54000, fun _ _ _ => some 32400⟩
      ⟨0.0, 0.0, "p"⟩ ⟨["a"], ["c"], ["e"], ["f"], ["g"], ["b"]⟩ "d"
      28800 30000
      ⟨⟨0, 7200, 14400, 21600, 25200, 3600, 28800⟩, ["d/a"], [1800]⟩ =
      (select_wallpaper [32400, 36000, 43200, 50000, 54000, 115200]
        ["d/a", "d/b", "d/c", "d/e", "d/f", "d/g"] 30000).map fun applied =>
        Except.ok
          (⟨⟨28800, 36000, 43200, 50000, 54000, 32400, 115200⟩,
            ["d/a", "d/b", "d/c", "d/e", "d/f", "d/g"],
            [32400, 36000, 43200, 50000, 54000, 115200]⟩, applied) :=
  rollover_rebuilds_then_selects _ _ _ "d" 28800 30000 _ _ _ _
    (by decide) rfl (by decide)

/-! ## C6: the NextDayMidnight anchor -/

/-- Counterexample to C6 as stated: a transit provider whose solar
midnight for the day is 100 yields an anchor set whose NextDayMidnight
is 86400 (computed from the day-start input, not from the Midnight
anchor), which differs from Midnight + 86400 = 86500. -/
theorem next_day_midnight_counterexample :
    get_day_sun_and_moon_position_times
      ⟨fun _ _ _ => some 200, fun _ _ _ => some 300, fun _ _ => 250,
        fun _ _ => 100, fun _ _ _ => some 400, fun _ _ _ => some 150⟩
      0 0.0 0.0 =
      Except.ok ⟨100, 200, 250, 300, 400, 150, 86400⟩ ∧
    ((86400 : Int) ≠ 100 + 86400) :=
  ⟨rfl, by decide⟩

/-- Claim C6 (amended): every anchor set returned by the retrieval function
has NextDayMidnight equal to the day-start input `today_posix` plus
86400 seconds (chrono adds an exact-86400-second day to the input, not
to the Midnight anchor), and the six base anchors are exactly what the
transit provider reports, with no containment in
[Midnight, NextDayMidnight) enforced. -/
theorem anchor_retrieval_eq_ok (tp : TransitProvider) (today : Int)
    (lon lat : Float) (sm : SunAndMoon)
    (h : get_day_sun_and_moon_position_times tp today lon lat =
      Except.ok sm) :
    sm.nextDayMidnight = today + 86400 ∧
    sm.midnight = tp.get_midnight today lon ∧
    sm.noon = tp.get_noon today lon ∧
    tp.get_sunrise today lon lat = some sm.sunrise ∧
    tp.get_sunset today lon lat = some sm.sunset ∧
    tp.get_moonrise today lon lat = some sm.moonrise ∧
    tp.get_moonset today lon lat = some sm.moonset := by
  cases hsr : tp.get_sunrise today lon lat with
  | none => simp [get_day_sun_and_moon_position_times, hsr] at h
  | some vsr =>
    cases hss : tp.get_sunset today lon lat with
    | none => simp [get_day_sun_and_moon_position_times, hsr, hss] at h
    | some vss =>
      cases hmr : tp.get_moonrise today lon lat with
      | none =>
        simp [get_day_sun_and_moon_position_times, hsr, hss, hmr] at h
      | some vmr =>
        cases hms : tp.get_moonset today lon lat with
        | none =>
          simp [get_day_sun_and_moon_position_times, hsr, hss, hmr,
            hms] at h
        | some vms =>
          simp only [get_day_sun_and_moon_position_times, hsr, hss, hmr,
            hms] at h
          injection h with h
          subst h
          refine ⟨rfl, rfl, rfl, ?_, ?_, ?_, ?_⟩ <;>
            simp [hsr, hss, hmr, hms]

/-- Witness for C6's amended theorem on the counterexample's provider. -/
theorem anchor_retrieval_eq_ok_witness :
    (⟨100, 200, 250, 300, 400, 150, 86400⟩ : SunAndMoon).nextDayMidnight =
      0 + 86400 ∧
    (⟨100, 200, 250, 300, 400, 150, 86400⟩ : SunAndMoon).midnight =
      TransitProvider.get_midnight
        ⟨fun _ _ _ => some 200, fun _ _ _ => some 300, fun _ _ => 250,
          fun _ _ => 100, fun _ _ _ => some 400, fun _ _ _ => some 150⟩
        0 0.0 ∧
    (⟨100, 200, 250, 300, 400, 150, 86400⟩ : SunAndMoon).noon =
      TransitProvider.get_noon
        ⟨fun _ _ _ => some 200, fun _ _ _ => some 300, fun _ _ => 250,
          fun _ _ => 100, fun _ _ _ => some 400, fun _ _ _ => some 150⟩
        0 0.0 ∧
    TransitProvider.get_sunrise
        ⟨fun _ _ _ => some 200, fun _ _ _ => some 300, fun _ _ => 250,
          fun _ _ => 100, fun _ _ _ => some 400, fun _ _ _ => some 150⟩
        0 0.0 0.0 =
      some (⟨100, 200, 250, 300, 400, 150, 86400⟩ : SunAndMoon).sunrise ∧
    TransitProvider.get_sunset
        ⟨fun _ _ _ => some 200, fun _ _ _ => some 300, fun _ _ => 250,
          fun _ _ => 100, fun _ _ _ => some 400, fun _ _ _ => some 150⟩
        0 0.0 0.0 =
      some (⟨100, 200, 250, 300, 400, 150, 86400⟩ : SunAndMoon).sunset ∧
    TransitProvider.get_moonrise
        ⟨fun _ _ _ => some 200, fun _ _ _ => some 300, fun _ _ => 250,
          fun _ _ => 100, fun _ _ _ => some 400, fun _ _ _ => some 150⟩
        0 0.0 0.0 =
      some (⟨100, 200, 250, 300, 400, 150, 86400⟩ : SunAndMoon).moonrise ∧
    TransitProvider.get_moonset
        ⟨fun _ _ _ => some 200, fun _ _ _ => some 300, fun _ _ => 250,
          fun _ _ => 100, fun _ _ _ => some 400, fun _ _ _ => some 150⟩
        0 0.0 0.0 =
      some (⟨100, 200, 250, 300, 400, 150, 86400⟩ : SunAndMoon).moonset :=
  anchor_retrieval_eq_ok
    ⟨fun _ _ _ => some 200, fun _ _ _ => some 300, fun _ _ => 250,
      fun _ _ => 100, fun _ _ _ => some 400, fun _ _ _ => some 150⟩
    0 0.0 0.0 ⟨100, 200, 250, 300, 400, 150, 86400⟩ rfl

/-! ## C7: unavailable transit is fatal -/

/-- Startup with a successfully loaded pack propagates an
anchor-retrieval error as a fatal exit (the `?` at `main.rs:330`). -/
theorem main_startup_fatal_of_anchor_error (pcfg : WallpaperPackConfig)
    (tp : TransitProvider) (config : WallpaperChangerConfig)
    (config_path : String) (today : Int) (dir : String) (e : String)
    (hpack : config.wallpaper_pack ≠ "")
    (h : get_day_sun_and_moon_position_times tp today config.longitude
      config.latitude = Except.error e) :
    main_startup (Except.ok pcfg) tp config config_path today dir =
      StartupResult.fatal e := by
  simp [main_startup, hpack, h]

/-- Claim C7: when the transit provider reports sunrise — or sunset,
moonrise, or moonset — as unavailable for the day and location (the
named transit being the first unavailable one in the source's check
order sunrise, sunset, moonrise, moonset), anchor retrieval returns the
error whose message identifies that failed transition, and startup
(with any successfully loaded pack) terminates with that reported
error — in particular no timeline is built (the result is `fatal`, not
`running`). -/
theorem transit_unavailable_fatal (pcfg : WallpaperPackConfig)
    (tp : TransitProvider) (config : WallpaperChangerConfig)
    (config_path : String) (today : Int) (dir : String) (e : String)
    (hpack : config.wallpaper_pack ≠ "")
    (hcase :
      (tp.get_sunrise today config.longitude config.latitude = none ∧
        e = "Can\x27t get sunrise.") ∨
      (tp.get_sunrise today config.longitude config.latitude ≠ none ∧
        tp.get_sunset today config.longitude config.latitude = none ∧
        e = "Can\x27t get sunset.") ∨
      (tp.get_sunrise today config.longitude config.latitude ≠ none ∧
        tp.get_sunset today config.longitude config.latitude ≠ none ∧
        tp.get_moonrise today config.longitude config.latitude = none ∧
        e = "Can\x27t get moonrise.") ∨
      (tp.get_sunrise today config.longitude config.latitude ≠ none ∧
        tp.get_sunset today config.longitude config.latitude ≠ none ∧
        tp.get_moonrise today config.longitude config.latitude ≠ none ∧
        tp.get_moonset today config.longitude config.latitude = none ∧
        e = "Can\x27t get moonset.")) :
    get_day_sun_and_moon_position_times tp today config.longitude
      config.latitude = Except.error e ∧
    main_startup (Except.ok pcfg) tp config config_path today dir =
      StartupResult.fatal e := by
  have herr : get_day_sun_and_moon_position_times tp today config.longitude
      config.latitude = Except.error e := by
    rcases hcase with ⟨hsr, rfl⟩ | ⟨hsr, hss, rfl⟩ | ⟨hsr, hss, hmr, rfl⟩ |
      ⟨hsr, hss, hmr, hms, rfl⟩
    · simp [get_day_sun_and_moon_position_times, hsr]
    · cases hv1 : tp.get_sunrise today config.longitude config.latitude with
      | none => exact absurd hv1 hsr
      | some v1 => simp [get_day_sun_and_moon_position_times, hv1, hss]
    · cases hv1 : tp.get_sunrise today config.longitude config.latitude with
      | none => exact absurd hv1 hsr
      | some v1 =>
        cases hv2 : tp.get_sunset today config.longitude config.latitude with
        | none => exact absurd hv2 hss
        | some v2 =>
          simp [get_day_sun_and_moon_position_times, hv1, hv2, hmr]
    · cases hv1 : tp.get_sunrise today config.longitude config.latitude with
      | none => exact absurd hv1 hsr
      | some v1 =>
        cases hv2 : tp.get_sunset today config.longitude config.latitude with
        | none => exact absurd hv2 hss
        | some v2 =>
          cases hv3 : tp.get_moonrise today config.longitude
              config.latitude with
          | none => exact absurd hv3 hmr
          | some v3 =>
            simp [get_day_sun_and_moon_position_times, hv1, hv2, hv3, hms]
  exact ⟨herr, main_startup_fatal_of_anchor_error pcfg tp config config_path
    today dir e hpack herr⟩

/-- Witness for C7 with a provider whose sunrise is unavailable. -/
theorem transit_unavailable_fatal_witness :
    get_day_sun_and_moon_position_times
      ⟨fun _ _ _ => none, fun _ _ _ => some 300, fun _ _ => 250,
        fun _ _ => 100, fun _ _ _ => some 400, fun _ _ _ => some 150⟩
      0 (0.0 : Float) (0.0 : Float) =
      Except.error "Can\x27t get sunrise." ∧
    main_startup (Except.ok ⟨["a"], ["c"], ["e"], ["f"], ["g"], ["b"]⟩)
      ⟨fun _ _ _ => none, fun _ _ _ => some 300, fun _ _ => 250,
        fun _ _ => 100, fun _ _ _ => some 400, fun _ _ _ => some 150⟩
      ⟨0.0, 0.0, "p"⟩ "cfg" 0 "d" =
      StartupResult.fatal "Can\x27t get sunrise." :=
  transit_unavailable_fatal ⟨["a"], ["c"], ["e"], ["f"], ["g"], ["b"]⟩
    ⟨fun _ _ _ => none, fun _ _ _ => some 300, fun _ _ => 250,
      fun _ _ => 100, fun _ _ _ => some 400, fun _ _ _ => some 150⟩
    ⟨0.0, 0.0, "p"⟩ "cfg" 0 "d" "Can\x27t get sunrise." (by decide)
    (Or.inl ⟨rfl, rfl⟩)

/-! ## C8: empty pack name -/

/-- Claim C8: with an empty configured pack name, startup takes the
not-configured branch — the user-facing message with the config path is
printed and the process returns `Ok(())` — and the result is the same
for every pack-config loader and transit provider, so neither is ever
consulted and no timeline is built. -/
theorem empty_pack_not_configured
    (load₁ load₂ : Except String WallpaperPackConfig)
    (tp₁ tp₂ : TransitProvider) (config : WallpaperChangerConfig)
    (config_path : String) (today : Int) (dir : String)
    (hpack : config.wallpaper_pack = "") :
    main_startup load₁ tp₁ config config_path today dir =
      StartupResult.notConfigured
        ("Wallpaper pack is not selected.\nCheck the config folder at path: "
          ++ config_path) ∧
    main_startup load₁ tp₁ config config_path today dir =
      main_startup load₂ tp₂ config config_path today dir := by
  constructor <;> simp [main_startup, hpack]

/-- Witness for C8: empty pack name, two different loaders and
providers. -/
theorem empty_pack_not_configured_witness :
    main_startup (Except.error "x")
      ⟨fun _ _ _ => none, fun _ _ _ => none, fun _ _ => 0, fun _ _ => 0,
        fun _ _ _ => none, fun _ _ _ => none⟩
      ⟨0.0, 0.0, ""⟩ "cfg" 0 "d" =
      StartupResult.notConfigured
        ("Wallpaper pack is not selected.\nCheck the config folder at path: "
          ++ "cfg") ∧
    main_startup (Except.error "x")
      ⟨fun _ _ _ => none, fun _ _ _ => none, fun _ _ => 0, fun _ _ => 0,
        fun _ _ _ => none, fun _ _ _ => none⟩
      ⟨0.0, 0.0, ""⟩ "cfg" 0 "d" =
      main_startup (Except.ok ⟨["a"], ["c"], ["e"], ["f"], ["g"], ["b"]⟩)
        ⟨fun _ _ _ => some 200, fun _ _ _ => some 300, fun _ _ => 250,
          fun _ _ => 100, fun _ _ _ => some 400, fun _ _ _ => some 150⟩
        ⟨0.0, 0.0, ""⟩ "cfg" 0 "d" :=
  empty_pack_not_configured (Except.error "x")
    (Except.ok ⟨["a"], ["c"], ["e"], ["f"], ["g"], ["b"]⟩)
    ⟨fun _ _ _ => none, fun _ _ _ => none, fun _ _ => 0, fun _ _ => 0,
      fun _ _ _ => none, fun _ _ _ => none⟩
    ⟨fun _ _ _ => some 200, fun _ _ _ => some 300, fun _ _ => 250,
      fun _ _ => 100, fun _ _ _ => some 400, fun _ _ _ => some 150⟩
    ⟨0.0, 0.0, ""⟩ "cfg" 0 "d" rfl

end WallpaperChanger
